import Mathlib

/-!
Shallow embedding of the content-management backend in `src/server.ts`
(Express + better-sqlite3). The three SQLite tables become Lean lists of
records together with the next AUTOINCREMENT id; each HTTP handler becomes a
pure function from its request data and the store state to the new state and
an HTTP response. SQLite's UNIQUE constraint on `users.username` is embedded
as an explicit duplicate check that raises `SqlError.constraintUnique`, the
value the handlers' catch blocks dispatch on (`SQLITE_CONSTRAINT_UNIQUE`).
Handlers that have no try/catch in the source (the services and team CRUD
routes) are embedded with result type `Except SqlError _`, so a store failure
propagates out of them instead of being turned into a response.
-/

namespace TetsWeb

/-- Error thrown by a store statement. `constraintUnique` is the
`SQLITE_CONSTRAINT_UNIQUE` code the user handlers test for; `otherFailure`
stands for every other persistence failure. -/
inductive SqlError where
  | constraintUnique
  | otherFailure
deriving Repr, DecidableEq

/-- JSON bodies produced by the API routes in `server.ts`. -/
inductive RespBody where
  /-- `\x7b success, message \x7d` bodies. -/
  | message (success : Bool) (msg : String)
  /-- `\x7b success: true \x7d` bodies. -/
  | successOnly
  /-- login success body: `user: \x7b id, name, username, role \x7d` (no password field). -/
  | loginUser (id : Nat) (name : String) (username : String) (role : String)
  /-- POST /api/users success body (no password field). -/
  | createdUser (id : Nat) (username : String) (name : String) (role : String)
  /-- POST /api/services success body. -/
  | createdService (id : Nat) (title : String) (description : String)
      (icon : String) (file_url : Option String)
  /-- POST /api/team success body. -/
  | createdTeam (id : Nat) (name : String) (title : String) (image : String)
      (icon : Option String)
  /-- POST /api/upload success body. -/
  | uploadOk (imageUrl : String)
deriving Repr, DecidableEq

/-- An HTTP response: status code plus JSON body. -/
structure HttpResp where
  status : Nat
  body : RespBody
deriving Repr, DecidableEq

/-- A row of the `users` table
(`id INTEGER PRIMARY KEY AUTOINCREMENT, username TEXT UNIQUE, password TEXT,
name TEXT, role TEXT DEFAULT 'editor'`). -/
structure User where
  id : Nat
  username : String
  password : String
  name : String
  role : String
deriving Repr, DecidableEq

/-- The `users` table: rows in rowid order plus the next AUTOINCREMENT id. -/
structure UsersState where
  rows : List User
  nextId : Nat
deriving Repr, DecidableEq

/-- The UNIQUE constraint on `users.username`, an invariant every reachable
store state satisfies. -/
def uniqueUsernames (s : UsersState) : Prop :=
  (s.rows.map User.username).Nodup

/-- The PRIMARY KEY property of `users.id`. -/
def uniqueIds (s : UsersState) : Prop :=
  (s.rows.map User.id).Nodup

/-- POST /api/login: `SELECT * FROM users WHERE username = ? AND password = ?`
(`.get` returns the first matching row), then either the user's public fields
or a 401. -/
def login (un pw : String) (s : UsersState) : HttpResp :=
  match s.rows.find? (fun u => u.username == un && u.password == pw) with
  | some u => ⟨200, .loginUser u.id u.name u.username u.role⟩
  | none => ⟨401, .message false "Invalid credentials"⟩

/-- Helper: in a list whose image under `f` has no duplicates, `f` is
injective on members. -/
theorem mem_eq_of_nodup_map {α β : Type} {f : α → β} {l : List α}
    (h : (l.map f).Nodup) {a b : α} (ha : a ∈ l) (hb : b ∈ l)
    (hf : f a = f b) : a = b :=
  List.inj_on_of_nodup_map h ha hb hf

/-- C1: if a stored user's username and password both equal the request's
values, POST /api/login answers 200 with exactly that user's id, name,
username and role (the response constructor has no password field); if no
stored user matches the pair, it answers 401. The hypothesis is the store's
UNIQUE constraint on usernames. -/
theorem login_correct (un pw : String) (s : UsersState)
    (hU : uniqueUsernames s) :
    (∀ u ∈ s.rows, u.username = un → u.password = pw →
      login un pw s = ⟨200, .loginUser u.id u.name u.username u.role⟩)
    ∧ ((∀ u ∈ s.rows, ¬(u.username = un ∧ u.password = pw)) →
      login un pw s = ⟨401, .message false "Invalid credentials"⟩) := by
  constructor
  · intro u hu hun hpw
    unfold login
    cases hfind : s.rows.find? (fun u => u.username == un && u.password == pw) with
    | none =>
      exfalso
      have := List.find?_eq_none.mp hfind u hu
      simp [hun, hpw] at this
    | some v =>
      have hvmem : v ∈ s.rows := List.mem_of_find?_eq_some hfind
      have hvp := List.find?_some hfind
      simp only [Bool.and_eq_true, beq_iff_eq] at hvp
      have : v = u := mem_eq_of_nodup_map hU hvmem hu (by rw [hvp.1, hun])
      subst this
      rfl
  · intro hno
    unfold login
    have : s.rows.find? (fun u => u.username == un && u.password == pw) = none := by
      apply List.find?_eq_none.mpr
      intro u hu
      simp only [Bool.and_eq_true, beq_iff_eq]
      intro hc
      exact hno u hu hc
    rw [this]

/-- Witness for `login_correct` at a concrete store. -/
theorem login_correct_witness :
    login "admin" "123456"
        ⟨[⟨1, "admin", "123456", "Administrator", "admin"⟩], 2⟩
      = ⟨200, .loginUser 1 "Administrator" "admin" "admin"⟩
    ∧ login "admin" "wrong"
        ⟨[⟨1, "admin", "123456", "Administrator", "admin"⟩], 2⟩
      = ⟨401, .message false "Invalid credentials"⟩ := by
  refine ⟨?_, ?_⟩
  · exact (login_correct "admin" "123456"
      ⟨[⟨1, "admin", "123456", "Administrator", "admin"⟩], 2⟩
      (by simp [uniqueUsernames])).1
      ⟨1, "admin", "123456", "Administrator", "admin"⟩ (by simp) rfl rfl
  · exact (login_correct "admin" "wrong"
      ⟨[⟨1, "admin", "123456", "Administrator", "admin"⟩], 2⟩
      (by simp [uniqueUsernames])).2
      (by intro u hu; simp at hu; subst hu; simp)

/-- The row update performed by
`UPDATE users SET role = 'admin' WHERE username = 'admin'`. -/
def adminUpdateRole (u : User) : User :=
  if u.username = "admin" then { u with role := "admin" } else u

/-- Seed Loader, admin step: `SELECT * FROM users WHERE username = 'admin'`;
if absent, `INSERT INTO users (username, password, name, role)
VALUES ('admin', '123456', 'Administrator', 'admin')`; otherwise
`UPDATE users SET role = 'admin' WHERE username = 'admin'`. -/
def seedAdmin (s : UsersState) : UsersState :=
  match s.rows.find? (fun u => u.username == "admin") with
  | none =>
      ⟨s.rows ++ [⟨s.nextId, "admin", "123456", "Administrator", "admin"⟩],
        s.nextId + 1⟩
  | some _ => ⟨s.rows.map adminUpdateRole, s.nextId⟩

theorem adminUpdateRole_username (u : User) :
    (adminUpdateRole u).username = u.username := by
  unfold adminUpdateRole; split <;> rfl

/-- Helper: under the username UNIQUE constraint at most one row is named
"admin". -/
theorem countP_admin_le_one {l : List User}
    (h : (l.map User.username).Nodup) :
    l.countP (fun u => u.username == "admin") ≤ 1 := by
  induction l with
  | nil => simp
  | cons u t ih =>
    simp only [List.map_cons, List.nodup_cons] at h
    by_cases hu : u.username = "admin"
    · rw [List.countP_cons_of_pos _ _ (by simp [hu])]
      have h0 : t.countP (fun u => u.username == "admin") = 0 := by
        apply List.countP_eq_zero.mpr
        intro v hv
        simp only [beq_iff_eq]
        intro hveq
        have : u.username = v.username := by rw [hu, hveq]
        exact h.1 (this ▸ List.mem_map_of_mem User.username hv)
      omega
    · rw [List.countP_cons_of_neg _ _ (by simp [hu])]
      exact ih h.2

/-- C2: after the Seed Loader's admin step, exactly one users row has
username "admin" and every such row has role "admin"; when no admin row
existed, the fixed row (password "123456", name "Administrator", role
"admin") is appended; when one existed, the step is exactly the
role-resetting UPDATE. The hypothesis is the UNIQUE constraint on
usernames. -/
theorem seedAdmin_correct (s : UsersState) (hU : uniqueUsernames s) :
    ((seedAdmin s).rows.countP (fun u => u.username == "admin") = 1
      ∧ ∀ u ∈ (seedAdmin s).rows, u.username = "admin" → u.role = "admin")
    ∧ ((∀ u ∈ s.rows, u.username ≠ "admin") →
        (seedAdmin s).rows
          = s.rows ++ [⟨s.nextId, "admin", "123456", "Administrator", "admin"⟩])
    ∧ ((∃ u ∈ s.rows, u.username = "admin") →
        (seedAdmin s).rows = s.rows.map adminUpdateRole) := by
  cases hfind : s.rows.find? (fun u => u.username == "admin") with
  | none =>
    have hnone : ∀ u ∈ s.rows, u.username ≠ "admin" := by
      intro u hu
      have := List.find?_eq_none.mp hfind u hu
      simpa using this
    refine ⟨⟨?_, ?_⟩, ?_, ?_⟩
    · simp only [seedAdmin, hfind]
      rw [List.countP_append]
      have h0 : s.rows.countP (fun u => u.username == "admin") = 0 :=
        List.countP_eq_zero.mpr (by intro v hv; simpa using hnone v hv)
      simp [h0]
    · simp only [seedAdmin, hfind]
      intro u hu
      rcases List.mem_append.mp hu with hu2 | hu2
      · intro hadmin; exact absurd hadmin (hnone u hu2)
      · simp only [List.mem_singleton] at hu2
        subst hu2; intro _; rfl
    · intro _; simp [seedAdmin, hfind]
    · rintro ⟨u, hu, hadmin⟩; exact absurd hadmin (hnone u hu)
  | some v =>
    have hvmem : v ∈ s.rows := List.mem_of_find?_eq_some hfind
    have hvadmin : v.username = "admin" := by
      have := List.find?_some hfind; simpa using this
    have hcomp : (User.username ∘ adminUpdateRole) = User.username := by
      funext u; simp [Function.comp, adminUpdateRole_username]
    have hmapcount :
        (s.rows.map adminUpdateRole).countP (fun u => u.username == "admin")
          = s.rows.countP (fun u => u.username == "admin") := by
      rw [List.countP_map]
      congr 1
      funext u
      simp [adminUpdateRole_username]
    have hU2 : ((s.rows.map adminUpdateRole).map User.username).Nodup := by
      rw [List.map_map, hcomp]; exact hU
    refine ⟨⟨?_, ?_⟩, ?_, ?_⟩
    · simp only [seedAdmin, hfind]
      have hle : (s.rows.map adminUpdateRole).countP
          (fun u => u.username == "admin") ≤ 1 := countP_admin_le_one hU2
      have hpos : 0 < (s.rows.map adminUpdateRole).countP
          (fun u => u.username == "admin") := by
        apply List.countP_pos_iff.mpr
        exact ⟨adminUpdateRole v, List.mem_map_of_mem _ hvmem,
          by simp [adminUpdateRole_username, hvadmin]⟩
      omega
    · simp only [seedAdmin, hfind]
      intro u hu
      rcases List.mem_map.mp hu with ⟨w, hw, rfl⟩
      intro hadmin
      have hw2 : w.username = "admin" := by
        rw [← adminUpdateRole_username w]; exact hadmin
      simp [adminUpdateRole, hw2]
    · intro hno; exact absurd hvadmin (hno v hvmem)
    · intro _; simp [seedAdmin, hfind]

/-- Witness for `seedAdmin_correct` at a store whose admin row was demoted to
role "editor". -/
theorem seedAdmin_correct_witness :
    ((seedAdmin ⟨[⟨1, "admin", "123456", "Administrator", "editor"⟩], 2⟩).rows.countP
        (fun u => u.username == "admin") = 1)
    ∧ (seedAdmin ⟨[⟨1, "admin", "123456", "Administrator", "editor"⟩], 2⟩).rows
        = [⟨1, "admin", "123456", "Administrator", "editor"⟩].map adminUpdateRole := by
  refine ⟨?_, ?_⟩
  · exact ((seedAdmin_correct ⟨[⟨1, "admin", "123456", "Administrator", "editor"⟩], 2⟩
      (by simp [uniqueUsernames])).1).1
  · exact (seedAdmin_correct ⟨[⟨1, "admin", "123456", "Administrator", "editor"⟩], 2⟩
      (by simp [uniqueUsernames])).2.2
      ⟨⟨1, "admin", "123456", "Administrator", "editor"⟩, by simp, rfl⟩

/-- Body of POST /api/users. `role` is `Option` because the handler applies
the JS default `role || 'editor'`, which also replaces an empty string. -/
structure UserCreateReq where
  username : String
  password : String
  name : String
  role : Option String
deriving Repr, DecidableEq

/-- The JS expression `role || 'editor'`: an absent (`undefined`) or empty
(falsy) role becomes "editor". -/
def roleOrEditor (r : Option String) : String :=
  match r with
  | none => "editor"
  | some x => if x = "" then "editor" else x

/-- The `INSERT INTO users (username, password, name, role) VALUES (?,?,?,?)`
statement: SQLite rejects a duplicate username with
`SQLITE_CONSTRAINT_UNIQUE`; otherwise the row is appended and the new rowid
returned as `lastInsertRowid`. -/
def usersInsert (req : UserCreateReq) (s : UsersState) :
    Except SqlError (UsersState × Nat) :=
  if s.rows.any (fun u => u.username == req.username) then
    .error .constraintUnique
  else
    .ok (⟨s.rows ++
      [⟨s.nextId, req.username, req.password, req.name, roleOrEditor req.role⟩],
      s.nextId + 1⟩, s.nextId)

/-- The response mapping of the POST /api/users handler: success echoes the
request (without the password); the catch block turns
`SQLITE_CONSTRAINT_UNIQUE` into 400 "Username already exists" and every other
error into 500 "Failed to create user". -/
def userCreateRespond (s : UsersState) (req : UserCreateReq) :
    Except SqlError (UsersState × Nat) → UsersState × HttpResp
  | .ok (s2, newId) =>
      (s2, ⟨200, .createdUser newId req.username req.name (roleOrEditor req.role)⟩)
  | .error .constraintUnique =>
      (s, ⟨400, .message false "Username already exists"⟩)
  | .error .otherFailure =>
      (s, ⟨500, .message false "Failed to create user"⟩)

/-- POST /api/users. -/
def usersCreate (req : UserCreateReq) (s : UsersState) : UsersState × HttpResp :=
  userCreateRespond s req (usersInsert req s)

/-- C3: creating a user whose username equals an existing user's username
answers 400 with the descriptive message "Username already exists" and leaves
the users table unchanged, in particular with the same row count. -/
theorem usersCreate_duplicate_username (req : UserCreateReq) (s : UsersState)
    (h : ∃ u ∈ s.rows, u.username = req.username) :
    usersCreate req s = (s, ⟨400, .message false "Username already exists"⟩)
    ∧ (usersCreate req s).1.rows.length = s.rows.length := by
  have hdup : s.rows.any (fun u => u.username == req.username) = true := by
    rcases h with ⟨u, hu, heq⟩
    exact List.any_eq_true.mpr ⟨u, hu, by simp [heq]⟩
  have : usersCreate req s = (s, ⟨400, .message false "Username already exists"⟩) := by
    simp only [usersCreate, usersInsert, hdup, if_pos]
    rfl
  exact ⟨this, by rw [this]⟩

/-- Witness for `usersCreate_duplicate_username`: creating a second "bob". -/
theorem usersCreate_duplicate_username_witness :
    usersCreate ⟨"bob", "secret", "Bobby", none⟩
        ⟨[⟨1, "bob", "pw", "Bob", "editor"⟩], 2⟩
      = (⟨[⟨1, "bob", "pw", "Bob", "editor"⟩], 2⟩,
          ⟨400, .message false "Username already exists"⟩)
    ∧ (usersCreate ⟨"bob", "secret", "Bobby", none⟩
        ⟨[⟨1, "bob", "pw", "Bob", "editor"⟩], 2⟩).1.rows.length
      = 1 :=
  usersCreate_duplicate_username ⟨"bob", "secret", "Bobby", none⟩
    ⟨[⟨1, "bob", "pw", "Bob", "editor"⟩], 2⟩
    ⟨⟨1, "bob", "pw", "Bob", "editor"⟩, by simp, rfl⟩

/-- Body of PUT /api/users/:id. `password` is `Option` because the handler
branches on the JS truthiness of `password` (`undefined` and `""` are both
falsy). -/
structure UserUpdateReq where
  username : String
  password : Option String
  name : String
  role : String
deriving Repr, DecidableEq

/-- Effect of the handler's UPDATE statement on one row. The row whose id is
addressed gets the request's username, name and role; its password is
replaced only when the request's password is truthy (present and nonempty),
mirroring `if (password)` choosing between the two UPDATE statements. -/
def applyUserUpdate (req : UserUpdateReq) (id : Nat) (u : User) : User :=
  if u.id = id then
    { u with
      username := req.username, name := req.name, role := req.role,
      password :=
        match req.password with
        | some p => if p = "" then u.password else p
        | none => u.password }
  else u

/-- Whether the UPDATE would violate the UNIQUE constraint on username: a row
with the addressed id exists and a different row already carries the
requested username. -/
def updateConflict (req : UserUpdateReq) (id : Nat) (rows : List User) : Bool :=
  rows.any (fun u => u.id == id)
    && rows.any (fun v => v.id != id && v.username == req.username)

/-- The `UPDATE users SET ... WHERE id = ?` statement (either variant). -/
def usersUpdateRun (req : UserUpdateReq) (id : Nat) (s : UsersState) :
    Except SqlError UsersState :=
  if updateConflict req id s.rows then .error .constraintUnique
  else .ok ⟨s.rows.map (applyUserUpdate req id), s.nextId⟩

/-- The response mapping of the PUT /api/users/:id handler: success answers
`\x7b success: true \x7d`; the catch block turns `SQLITE_CONSTRAINT_UNIQUE`
into 400 "Username already exists" and every other error into 500
"Failed to update user". -/
def userUpdateRespond (s : UsersState) :
    Except SqlError UsersState → UsersState × HttpResp
  | .ok s2 => (s2, ⟨200, .successOnly⟩)
  | .error .constraintUnique =>
      (s, ⟨400, .message false "Username already exists"⟩)
  | .error .otherFailure =>
      (s, ⟨500, .message false "Failed to update user"⟩)

/-- PUT /api/users/:id. -/
def usersUpdate (req : UserUpdateReq) (id : Nat) (s : UsersState) :
    UsersState × HttpResp :=
  userUpdateRespond s (usersUpdateRun req id s)

/-- C4 counterexample. Store: alice (id 1) and bob (id 2). First input: a
PUT for id 2 with username "alice" and no password is rejected with 400 and
bob's username stays "bob", refuting "username, name, and role are
overwritten with the request's values". Second input: a PUT for id 2
supplying the password "" leaves bob's stored password "pwB", refuting "if a
password is supplied, it replaces the stored value". -/
theorem usersUpdate_claim_fails :
    (usersUpdate ⟨"alice", none, "Bobby", "editor"⟩ 2
        ⟨[⟨1, "alice", "pwA", "Alice", "admin"⟩, ⟨2, "bob", "pwB", "Bob", "editor"⟩], 3⟩
      = (⟨[⟨1, "alice", "pwA", "Alice", "admin"⟩, ⟨2, "bob", "pwB", "Bob", "editor"⟩], 3⟩,
          ⟨400, .message false "Username already exists"⟩))
    ∧ ((usersUpdate ⟨"bob", some "", "Bobby", "editor"⟩ 2
        ⟨[⟨1, "alice", "pwA", "Alice", "admin"⟩, ⟨2, "bob", "pwB", "Bob", "editor"⟩], 3⟩).1.rows.map
          User.password
      = ["pwA", "pwB"]) := by
  constructor
  · rfl
  · rfl

/-- C4 (amended): a PUT addressing an existing user succeeds provided no
other row already carries the requested username; the addressed row then
holds the request's username, name and role, keeps its stored password when
the request's password is absent or empty, and takes a supplied nonempty
password. -/
theorem usersUpdate_password_preserved (req : UserUpdateReq) (id : Nat)
    (s : UsersState) (u : User) (hu : u ∈ s.rows) (hid : u.id = id)
    (hnc : ∀ v ∈ s.rows, v.id = id ∨ v.username ≠ req.username) :
    (usersUpdate req id s).2 = ⟨200, .successOnly⟩
    ∧ ∃ w ∈ (usersUpdate req id s).1.rows,
        w.id = u.id ∧ w.username = req.username ∧ w.name = req.name
        ∧ w.role = req.role
        ∧ ((req.password = none ∨ req.password = some "") →
            w.password = u.password)
        ∧ (∀ p, req.password = some p → p ≠ "" → w.password = p) := by
  have hnoc : updateConflict req id s.rows = false := by
    unfold updateConflict
    simp only [Bool.and_eq_false_iff]
    right
    apply List.any_eq_false.mpr
    intro v hv
    rcases hnc v hv with hveq | hvne
    · simp [hveq]
    · simp [hvne]
  have hrun : usersUpdateRun req id s
      = .ok ⟨s.rows.map (applyUserUpdate req id), s.nextId⟩ := by
    simp [usersUpdateRun, hnoc]
  constructor
  · simp [usersUpdate, hrun, userUpdateRespond]
  · refine ⟨applyUserUpdate req id u, ?_, ?_, ?_, ?_, ?_, ?_, ?_⟩
    · simp only [usersUpdate, hrun, userUpdateRespond]
      exact List.mem_map_of_mem _ hu
    · simp [applyUserUpdate, hid]
    · simp [applyUserUpdate, hid]
    · simp [applyUserUpdate, hid]
    · simp [applyUserUpdate, hid]
    · rintro (hp | hp) <;> simp [applyUserUpdate, hid, hp]
    · intro p hp hne
      simp [applyUserUpdate, hid, hp, hne]

/-- Witness for `usersUpdate_password_preserved`: renaming bob without a
password. -/
theorem usersUpdate_password_preserved_witness :
    (usersUpdate ⟨"robert", none, "Robert", "admin"⟩ 2
        ⟨[⟨2, "bob", "pwB", "Bob", "editor"⟩], 3⟩).2 = ⟨200, .successOnly⟩
    ∧ ∃ w ∈ (usersUpdate ⟨"robert", none, "Robert", "admin"⟩ 2
        ⟨[⟨2, "bob", "pwB", "Bob", "editor"⟩], 3⟩).1.rows,
        w.id = 2 ∧ w.username = "robert" ∧ w.name = "Robert" ∧ w.role = "admin"
        ∧ (((none : Option String) = none ∨ (none : Option String) = some "") →
            w.password = "pwB")
        ∧ (∀ p, (none : Option String) = some p → p ≠ "" → w.password = p) :=
  usersUpdate_password_preserved ⟨"robert", none, "Robert", "admin"⟩ 2
    ⟨[⟨2, "bob", "pwB", "Bob", "editor"⟩], 3⟩ ⟨2, "bob", "pwB", "Bob", "editor"⟩
    (by simp) rfl (by intro v hv; simp at hv; subst hv; left; rfl)

/-- C10: supplying the empty string as the password on PUT /api/users/:id is
JS-falsy, so the handler runs the password-less UPDATE: the result equals
that of the same request with the password omitted, and more generally an
updated row can only have an empty stored password if the row's password was
already empty before the request. -/
theorem usersUpdate_empty_password (req : UserUpdateReq) (id : Nat)
    (s : UsersState) :
    usersUpdate { req with password := some "" } id s
      = usersUpdate { req with password := none } id s
    ∧ ∀ w ∈ (usersUpdate req id s).1.rows, w.password = "" →
        ∃ u ∈ s.rows, u.id = w.id ∧ u.password = "" := by
  constructor
  · have happ : applyUserUpdate { req with password := some "" } id
        = applyUserUpdate { req with password := none } id := by
      funext u
      simp [applyUserUpdate]
    simp [usersUpdate, usersUpdateRun, updateConflict, happ]
  · intro w hw hwp
    rcases hrun : usersUpdateRun req id s with he | s2
    · have : (usersUpdate req id s).1 = s := by
        rcases he with he | he <;> simp [usersUpdate, hrun, userUpdateRespond]
      rw [this] at hw
      exact ⟨w, hw, rfl, hwp⟩
    · have hs2 : s2 = ⟨s.rows.map (applyUserUpdate req id), s.nextId⟩ := by
        by_cases hc : updateConflict req id s.rows
          <;> simp [usersUpdateRun, hc] at hrun
        exact hrun.symm
      have : (usersUpdate req id s).1 = s2 := by
        simp [usersUpdate, hrun, userUpdateRespond]
      rw [this, hs2] at hw
      rcases List.mem_map.mp hw with ⟨v, hv, rfl⟩
      refine ⟨v, hv, ?_, ?_⟩
      · by_cases hvid : v.id = id <;> simp [applyUserUpdate, hvid]
      · by_cases hvid : v.id = id
        · rw [← hwp]
          simp only [applyUserUpdate, hvid, if_pos]
          rcases hp : req.password with _ | p
          · rfl
          · by_cases hpe : p = ""
            · simp [hpe]
            · exfalso
              have : (applyUserUpdate req id v).password = p := by
                simp [applyUserUpdate, hvid, hp, hpe]
              rw [hwp] at this
              exact hpe this.symm
        · simpa [applyUserUpdate, hvid] using hwp

/-- Witness for `usersUpdate_empty_password`: a request carrying password ""
acts like one carrying none, and a row ends empty only if it started empty. -/
theorem usersUpdate_empty_password_witness :
    usersUpdate ⟨"bob", some "", "Bobby", "editor"⟩ 2
        ⟨[⟨2, "bob", "pw", "Bob", "editor"⟩], 3⟩
      = usersUpdate ⟨"bob", none, "Bobby", "editor"⟩ 2
        ⟨[⟨2, "bob", "pw", "Bob", "editor"⟩], 3⟩
    ∧ ∃ u ∈ [User.mk 2 "blank" "" "Blank" "editor"], u.id = 2 ∧ u.password = "" := by
  constructor
  · exact (usersUpdate_empty_password ⟨"bob", none, "Bobby", "editor"⟩ 2
      ⟨[⟨2, "bob", "pw", "Bob", "editor"⟩], 3⟩).1
  · exact (usersUpdate_empty_password ⟨"x", none, "X", "editor"⟩ 9
      ⟨[⟨2, "blank", "", "Blank", "editor"⟩], 3⟩).2
      ⟨2, "blank", "", "Blank", "editor"⟩ (by simp [usersUpdate, usersUpdateRun,
        updateConflict, userUpdateRespond, applyUserUpdate]) rfl

/-- The response mapping of DELETE /api/users/:id: its catch block turns
every error into 500 "Failed to delete user". -/
def userDeleteRespond (s : UsersState) :
    Except SqlError UsersState → UsersState × HttpResp
  | .ok s2 => (s2, ⟨200, .successOnly⟩)
  | .error _ => (s, ⟨500, .message false "Failed to delete user"⟩)

/-- DELETE /api/users/:id: `DELETE FROM users WHERE id = ?` (no constraint
can fail on a delete in this schema). -/
def usersDelete (id : Nat) (s : UsersState) : UsersState × HttpResp :=
  userDeleteRespond s (.ok ⟨s.rows.filter (fun u => u.id != id), s.nextId⟩)

/-- A row of the `services` table. `file_url` is nullable. -/
structure Service where
  id : Nat
  title : String
  description : String
  icon : String
  file_url : Option String
deriving Repr, DecidableEq

/-- The `services` table. -/
structure ServicesState where
  rows : List Service
  nextId : Nat
deriving Repr, DecidableEq

/-- A row of the `team` table. `icon` is nullable. -/
structure TeamMember where
  id : Nat
  name : String
  title : String
  image : String
  icon : Option String
deriving Repr, DecidableEq

/-- The `team` table. -/
structure TeamState where
  rows : List TeamMember
  nextId : Nat
deriving Repr, DecidableEq

/-- Body of POST /api/services and PUT /api/services/:id. -/
structure ServiceReq where
  title : String
  description : String
  icon : String
  file_url : Option String
deriving Repr, DecidableEq

/-- Body of POST /api/team and PUT /api/team/:id. -/
structure TeamReq where
  name : String
  title : String
  image : String
  icon : Option String
deriving Repr, DecidableEq

/-- `INSERT INTO services (title, description, icon, file_url)`. -/
def servicesInsert (req : ServiceReq) (s : ServicesState) : ServicesState × Nat :=
  (⟨s.rows ++ [⟨s.nextId, req.title, req.description, req.icon, req.file_url⟩],
    s.nextId + 1⟩, s.nextId)

/-- `UPDATE services SET title = ?, description = ?, icon = ?, file_url = ?
WHERE id = ?`. -/
def servicesUpdateRun (req : ServiceReq) (id : Nat) (s : ServicesState) :
    ServicesState :=
  ⟨s.rows.map (fun r =>
      if r.id = id then
        { r with
          title := req.title
          description := req.description
          icon := req.icon
          file_url := req.file_url }
      else r),
    s.nextId⟩

/-- `DELETE FROM services WHERE id = ?`. -/
def servicesDeleteRun (id : Nat) (s : ServicesState) : ServicesState :=
  ⟨s.rows.filter (fun r => r.id != id), s.nextId⟩

/-- `INSERT INTO team (name, title, image, icon)`. -/
def teamInsert (req : TeamReq) (s : TeamState) : TeamState × Nat :=
  (⟨s.rows ++ [⟨s.nextId, req.name, req.title, req.image, req.icon⟩],
    s.nextId + 1⟩, s.nextId)

/-- `UPDATE team SET name = ?, title = ?, image = ?, icon = ? WHERE id = ?`. -/
def teamUpdateRun (req : TeamReq) (id : Nat) (s : TeamState) : TeamState :=
  ⟨s.rows.map (fun t =>
      if t.id = id then
        { t with
          name := req.name
          title := req.title
          image := req.image
          icon := req.icon }
      else t),
    s.nextId⟩

/-- `DELETE FROM team WHERE id = ?`. -/
def teamDeleteRun (id : Nat) (s : TeamState) : TeamState :=
  ⟨s.rows.filter (fun t => t.id != id), s.nextId⟩

/-- The services and team handlers have no try/catch, so their response
mappings simply `Except.map` the store outcome: a store error propagates out
of the route instead of becoming a response. POST /api/services echoes the
created record. -/
def servicesCreateRespond (req : ServiceReq) :
    Except SqlError (ServicesState × Nat) →
      Except SqlError (ServicesState × HttpResp) :=
  Except.map (fun (s2, newId) =>
    (s2, ⟨200, .createdService newId req.title req.description req.icon req.file_url⟩))

/-- Response mapping of PUT /api/services/:id (no try/catch). -/
def servicesUpdateRespond :
    Except SqlError ServicesState → Except SqlError (ServicesState × HttpResp) :=
  Except.map (fun s2 => (s2, ⟨200, .successOnly⟩))

/-- Response mapping of DELETE /api/services/:id (no try/catch). -/
def servicesDeleteRespond :
    Except SqlError ServicesState → Except SqlError (ServicesState × HttpResp) :=
  Except.map (fun s2 => (s2, ⟨200, .successOnly⟩))

/-- Response mapping of POST /api/team (no try/catch). -/
def teamCreateRespond (req : TeamReq) :
    Except SqlError (TeamState × Nat) → Except SqlError (TeamState × HttpResp) :=
  Except.map (fun (s2, newId) =>
    (s2, ⟨200, .createdTeam newId req.name req.title req.image req.icon⟩))

/-- Response mapping of PUT /api/team/:id (no try/catch). -/
def teamUpdateRespond :
    Except SqlError TeamState → Except SqlError (TeamState × HttpResp) :=
  Except.map (fun s2 => (s2, ⟨200, .successOnly⟩))

/-- Response mapping of DELETE /api/team/:id (no try/catch). -/
def teamDeleteRespond :
    Except SqlError TeamState → Except SqlError (TeamState × HttpResp) :=
  Except.map (fun s2 => (s2, ⟨200, .successOnly⟩))

/-- PUT /api/services/:id. -/
def servicesUpdate (req : ServiceReq) (id : Nat) (s : ServicesState) :
    Except SqlError (ServicesState × HttpResp) :=
  servicesUpdateRespond (.ok (servicesUpdateRun req id s))

/-- DELETE /api/services/:id. -/
def servicesDelete (id : Nat) (s : ServicesState) :
    Except SqlError (ServicesState × HttpResp) :=
  servicesDeleteRespond (.ok (servicesDeleteRun id s))

/-- PUT /api/team/:id. -/
def teamUpdate (req : TeamReq) (id : Nat) (s : TeamState) :
    Except SqlError (TeamState × HttpResp) :=
  teamUpdateRespond (.ok (teamUpdateRun req id s))

/-- DELETE /api/team/:id. -/
def teamDelete (id : Nat) (s : TeamState) :
    Except SqlError (TeamState × HttpResp) :=
  teamDeleteRespond (.ok (teamDeleteRun id s))

/-- Helper: mapping a function that fixes every member is the identity. -/
theorem map_id_of_fixed {α : Type} {l : List α} {f : α → α}
    (h : ∀ a ∈ l, f a = a) : l.map f = l := by
  induction l with
  | nil => rfl
  | cons a t ih =>
    simp only [List.map_cons, h a (List.mem_cons_self a t)]
    rw [ih (fun b hb => h b (List.mem_cons_of_mem a hb))]

/-- C7: updating or deleting an identifier that matches no row answers
`\x7b success: true \x7d` and leaves the collection unchanged, for the team,
services and users collections alike (the `.ok` outcome for services/team
records that no store error escapes either). -/
theorem missing_id_silent_noop (id : Nat) (ts : TeamState) (ss : ServicesState)
    (us : UsersState) (reqT : TeamReq) (reqS : ServiceReq) (reqU : UserUpdateReq)
    (hT : ∀ t ∈ ts.rows, t.id ≠ id) (hS : ∀ r ∈ ss.rows, r.id ≠ id)
    (hU : ∀ u ∈ us.rows, u.id ≠ id) :
    teamDelete id ts = .ok (ts, ⟨200, .successOnly⟩)
    ∧ teamUpdate reqT id ts = .ok (ts, ⟨200, .successOnly⟩)
    ∧ servicesDelete id ss = .ok (ss, ⟨200, .successOnly⟩)
    ∧ servicesUpdate reqS id ss = .ok (ss, ⟨200, .successOnly⟩)
    ∧ usersDelete id us = (us, ⟨200, .successOnly⟩)
    ∧ usersUpdate reqU id us = (us, ⟨200, .successOnly⟩) := by
  have hteamD : teamDeleteRun id ts = ts := by
    unfold teamDeleteRun
    rw [List.filter_eq_self.mpr (by intro t ht; simpa using hT t ht)]
  have hteamU : teamUpdateRun reqT id ts = ts := by
    unfold teamUpdateRun
    rw [map_id_of_fixed (by intro t ht; simp [hT t ht])]
  have hservD : servicesDeleteRun id ss = ss := by
    unfold servicesDeleteRun
    rw [List.filter_eq_self.mpr (by intro r hr; simpa using hS r hr)]
  have hservU : servicesUpdateRun reqS id ss = ss := by
    unfold servicesUpdateRun
    rw [map_id_of_fixed (by intro r hr; simp [hS r hr])]
  have husersD : us.rows.filter (fun u => u.id != id) = us.rows :=
    List.filter_eq_self.mpr (by intro u hu; simpa using hU u hu)
  have hconf : updateConflict reqU id us.rows = false := by
    unfold updateConflict
    simp only [Bool.and_eq_false_iff]
    left
    apply List.any_eq_false.mpr
    intro u hu
    simpa using hU u hu
  have hmap : us.rows.map (applyUserUpdate reqU id) = us.rows :=
    map_id_of_fixed (by intro u hu; simp [applyUserUpdate, hU u hu])
  refine ⟨?_, ?_, ?_, ?_, ?_, ?_⟩
  · simp [teamDelete, teamDeleteRespond, Except.map, hteamD]
  · simp [teamUpdate, teamUpdateRespond, Except.map, hteamU]
  · simp [servicesDelete, servicesDeleteRespond, Except.map, hservD]
  · simp [servicesUpdate, servicesUpdateRespond, Except.map, hservU]
  · simp [usersDelete, userDeleteRespond, husersD]
  · simp [usersUpdate, usersUpdateRun, userUpdateRespond, hconf, hmap]

/-- Witness for `missing_id_silent_noop`: id 99 matches nothing in
single-row collections. -/
theorem missing_id_silent_noop_witness :
    teamDelete 99 ⟨[⟨1, "LS. A", "Director", "img", none⟩], 2⟩
      = .ok (⟨[⟨1, "LS. A", "Director", "img", none⟩], 2⟩, ⟨200, .successOnly⟩)
    ∧ teamUpdate ⟨"B", "T", "i", none⟩ 99 ⟨[⟨1, "LS. A", "Director", "img", none⟩], 2⟩
      = .ok (⟨[⟨1, "LS. A", "Director", "img", none⟩], 2⟩, ⟨200, .successOnly⟩)
    ∧ servicesDelete 99 ⟨[⟨1, "Law", "Desc", "Leaf", none⟩], 2⟩
      = .ok (⟨[⟨1, "Law", "Desc", "Leaf", none⟩], 2⟩, ⟨200, .successOnly⟩)
    ∧ servicesUpdate ⟨"T", "D", "I", none⟩ 99 ⟨[⟨1, "Law", "Desc", "Leaf", none⟩], 2⟩
      = .ok (⟨[⟨1, "Law", "Desc", "Leaf", none⟩], 2⟩, ⟨200, .successOnly⟩)
    ∧ usersDelete 99 ⟨[⟨1, "admin", "123456", "Administrator", "admin"⟩], 2⟩
      = (⟨[⟨1, "admin", "123456", "Administrator", "admin"⟩], 2⟩, ⟨200, .successOnly⟩)
    ∧ usersUpdate ⟨"u", none, "n", "editor"⟩ 99
        ⟨[⟨1, "admin", "123456", "Administrator", "admin"⟩], 2⟩
      = (⟨[⟨1, "admin", "123456", "Administrator", "admin"⟩], 2⟩, ⟨200, .successOnly⟩) :=
  missing_id_silent_noop 99
    ⟨[⟨1, "LS. A", "Director", "img", none⟩], 2⟩
    ⟨[⟨1, "Law", "Desc", "Leaf", none⟩], 2⟩
    ⟨[⟨1, "admin", "123456", "Administrator", "admin"⟩], 2⟩
    ⟨"B", "T", "i", none⟩ ⟨"T", "D", "I", none⟩ ⟨"u", none, "n", "editor"⟩
    (by intro t ht; simp at ht; subst ht; simp)
    (by intro r hr; simp at hr; subst hr; simp)
    (by intro u hu; simp at hu; subst hu; simp)

/-- C8 counterexample: the services and team routes have no try/catch, so a
persistence failure there is not turned into any response at all — it
propagates out of the handler (`.error`), contradicting "For every CRUD
request (users, services, or team), any persistence failure other than a
username-uniqueness violation results in a generic server error response". -/
theorem services_team_failure_not_translated :
    servicesCreateRespond ⟨"T", "D", "I", none⟩ (.error .otherFailure)
      = .error .otherFailure
    ∧ teamDeleteRespond (.error .otherFailure) = .error .otherFailure := by
  constructor <;> rfl

/-- C8 (amended): the users handlers translate store errors — uniqueness
violations on create/update become 400 with a descriptive message, every
other failure becomes 500 with a short generic message (users delete maps
every failure to 500) — while the services and team handlers perform no
translation and let the failure propagate. -/
theorem error_translation (e : SqlError) (he : e ≠ .constraintUnique)
    (s : UsersState) (req : UserCreateReq) (reqS : ServiceReq) (reqT : TeamReq) :
    userCreateRespond s req (.error .constraintUnique)
      = (s, ⟨400, .message false "Username already exists"⟩)
    ∧ userCreateRespond s req (.error e)
      = (s, ⟨500, .message false "Failed to create user"⟩)
    ∧ userUpdateRespond s (.error .constraintUnique)
      = (s, ⟨400, .message false "Username already exists"⟩)
    ∧ userUpdateRespond s (.error e)
      = (s, ⟨500, .message false "Failed to update user"⟩)
    ∧ (∀ e2 : SqlError, userDeleteRespond s (.error e2)
      = (s, ⟨500, .message false "Failed to delete user"⟩))
    ∧ (∀ e2 : SqlError, servicesCreateRespond reqS (.error e2) = .error e2)
    ∧ (∀ e2 : SqlError, servicesUpdateRespond (.error e2) = .error e2)
    ∧ (∀ e2 : SqlError, servicesDeleteRespond (.error e2) = .error e2)
    ∧ (∀ e2 : SqlError, teamCreateRespond reqT (.error e2) = .error e2)
    ∧ (∀ e2 : SqlError, teamUpdateRespond (.error e2) = .error e2)
    ∧ (∀ e2 : SqlError, teamDeleteRespond (.error e2) = .error e2) := by
  have he2 : e = .otherFailure := by
    cases e
    · exact absurd rfl he
    · rfl
  subst he2
  exact ⟨rfl, rfl, rfl, rfl, fun e2 => rfl, fun e2 => rfl, fun e2 => rfl,
    fun e2 => rfl, fun e2 => rfl, fun e2 => rfl, fun e2 => rfl⟩

/-- Witness for `error_translation` at a failure that is not a uniqueness
violation. -/
theorem error_translation_witness :
    userCreateRespond ⟨[], 1⟩ ⟨"a", "p", "A", none⟩ (.error .constraintUnique)
      = (⟨[], 1⟩, ⟨400, .message false "Username already exists"⟩)
    ∧ userCreateRespond ⟨[], 1⟩ ⟨"a", "p", "A", none⟩ (.error .otherFailure)
      = (⟨[], 1⟩, ⟨500, .message false "Failed to create user"⟩)
    ∧ userUpdateRespond ⟨[], 1⟩ (.error .constraintUnique)
      = (⟨[], 1⟩, ⟨400, .message false "Username already exists"⟩)
    ∧ userUpdateRespond ⟨[], 1⟩ (.error .otherFailure)
      = (⟨[], 1⟩, ⟨500, .message false "Failed to update user"⟩)
    ∧ userDeleteRespond ⟨[], 1⟩ (.error .otherFailure)
      = (⟨[], 1⟩, ⟨500, .message false "Failed to delete user"⟩)
    ∧ servicesCreateRespond ⟨"T", "D", "I", none⟩ (.error .constraintUnique)
      = .error .constraintUnique
    ∧ servicesUpdateRespond (.error .otherFailure) = .error .otherFailure
    ∧ servicesDeleteRespond (.error .otherFailure) = .error .otherFailure
    ∧ teamCreateRespond ⟨"N", "T", "I", none⟩ (.error .otherFailure)
      = .error .otherFailure
    ∧ teamUpdateRespond (.error .otherFailure) = .error .otherFailure
    ∧ teamDeleteRespond (.error .constraintUnique) = .error .constraintUnique := by
  obtain ⟨h1, h2, h3, h4, h5, h6, h7, h8, h9, h10, h11⟩ :=
    error_translation .otherFailure (by decide) ⟨[], 1⟩ ⟨"a", "p", "A", none⟩
      ⟨"T", "D", "I", none⟩ ⟨"N", "T", "I", none⟩
  exact ⟨h1, h2, h3, h4, h5 .otherFailure, h6 .constraintUnique,
    h7 .otherFailure, h8 .otherFailure, h9 .otherFailure, h10 .otherFailure,
    h11 .constraintUnique⟩

/-- Column set of `CREATE TABLE IF NOT EXISTS users`. -/
def usersCols : List String := ["id", "username", "password", "name", "role"]

/-- Column set of `CREATE TABLE IF NOT EXISTS services`. -/
def servicesCols : List String :=
  ["id", "title", "description", "icon", "file_url"]

/-- Column set of `CREATE TABLE IF NOT EXISTS team`. -/
def teamCols : List String := ["id", "name", "title", "image", "icon"]

/-- `CREATE TABLE IF NOT EXISTS`: creates the table with the fixed column
list only when it is absent. -/
def createTableIfNotExists (t : Option (List String)) (cols : List String) :
    Option (List String) :=
  match t with
  | none => some cols
  | some existing => some existing

/-- The migration pattern: `PRAGMA table_info`, then
`ALTER TABLE ... ADD COLUMN` when the column is missing (appended at the
end). On a missing table the PRAGMA lists no columns and the ALTER fails;
the catch block only logs, so the state is unchanged (`none ↦ none`). -/
def addColumnIfMissing (t : Option (List String)) (c : String) :
    Option (List String) :=
  match t with
  | none => none
  | some cols => if c ∈ cols then some cols else some (cols ++ [c])

/-- The live schema: for each table, `none` when absent, otherwise its
column list in declaration order. -/
structure DbSchema where
  users : Option (List String)
  services : Option (List String)
  team : Option (List String)
deriving Repr, DecidableEq

/-- The startup schema setup: three `CREATE TABLE IF NOT EXISTS` statements,
each followed by its column migration (`role` on users, `file_url` on
services, `icon` on team). -/
def setupSchema (s : DbSchema) : DbSchema :=
  { users := addColumnIfMissing (createTableIfNotExists s.users usersCols) "role"
    services :=
      addColumnIfMissing (createTableIfNotExists s.services servicesCols) "file_url"
    team := addColumnIfMissing (createTableIfNotExists s.team teamCols) "icon" }

/-- A table's columns hold no duplicates. -/
def colsNodup : Option (List String) → Prop
  | none => True
  | some cols => cols.Nodup

/-- No table of the schema has a duplicate column. -/
def schemaNodup (s : DbSchema) : Prop :=
  colsNodup s.users ∧ colsNodup s.services ∧ colsNodup s.team

/-- Helper: one create-then-migrate pass always leaves the migration column
present, so a second pass is the identity. -/
theorem create_migrate_idem (t : Option (List String)) (cols : List String)
    (c : String) :
    addColumnIfMissing
        (createTableIfNotExists
          (addColumnIfMissing (createTableIfNotExists t cols) c) cols) c
      = addColumnIfMissing (createTableIfNotExists t cols) c := by
  cases t with
  | none =>
    simp only [createTableIfNotExists, addColumnIfMissing]
    by_cases hc : c ∈ cols
    · simp [createTableIfNotExists, addColumnIfMissing, hc]
    · simp [createTableIfNotExists, addColumnIfMissing, hc]
  | some x =>
    simp only [createTableIfNotExists, addColumnIfMissing]
    by_cases hc : c ∈ x
    · simp [createTableIfNotExists, addColumnIfMissing, hc]
    · simp [createTableIfNotExists, addColumnIfMissing, hc]

/-- Helper: one create-then-migrate pass preserves duplicate-freeness when
the create uses a duplicate-free column list. -/
theorem create_migrate_nodup (t : Option (List String)) (cols : List String)
    (c : String) (hcols : cols.Nodup) (ht : colsNodup t) :
    colsNodup (addColumnIfMissing (createTableIfNotExists t cols) c) := by
  cases t with
  | none =>
    simp only [createTableIfNotExists, addColumnIfMissing]
    by_cases hc : c ∈ cols
    · simpa [colsNodup, hc] using hcols
    · simp only [hc, if_neg, colsNodup]
      simpa [List.nodup_append, hc] using hcols
  | some x =>
    simp only [createTableIfNotExists, addColumnIfMissing]
    by_cases hc : c ∈ x
    · simpa [colsNodup, hc] using ht
    · simp only [hc, if_neg, colsNodup]
      have hx : x.Nodup := ht
      simpa [List.nodup_append, hc] using hx

/-- C5: the schema setup is idempotent — a second run returns the identical
schema, with no duplicate column introduced, whatever the prior schema
state. -/
theorem setupSchema_idempotent (s : DbSchema) :
    setupSchema (setupSchema s) = setupSchema s
    ∧ (schemaNodup s → schemaNodup (setupSchema s)) := by
  constructor
  · unfold setupSchema
    simp only [create_migrate_idem]
  · rintro ⟨h1, h2, h3⟩
    exact ⟨create_migrate_nodup s.users usersCols "role" (by decide) h1,
      create_migrate_nodup s.services servicesCols "file_url" (by decide) h2,
      create_migrate_nodup s.team teamCols "icon" (by decide) h3⟩

/-- Witness for `setupSchema_idempotent` starting from an empty data file
(no tables). -/
theorem setupSchema_idempotent_witness :
    setupSchema (setupSchema ⟨none, none, none⟩) = setupSchema ⟨none, none, none⟩
    ∧ schemaNodup (setupSchema ⟨none, none, none⟩) :=
  ⟨(setupSchema_idempotent ⟨none, none, none⟩).1,
    (setupSchema_idempotent ⟨none, none, none⟩).2
      ⟨trivial, trivial, trivial⟩⟩

/-- The fixed default services, in source-array order, as
(title, description, icon) — the argument order of
`insertService.run(s.title, s.description, s.icon)`. -/
def initialServices : List (String × String × String) :=
  [("Môi trường & Năng lượng",
    "Tư vấn tuân thủ quy định môi trường, đánh giá tác động và phát triển dự án năng lượng tái tạo.",
    "Leaf"),
   ("Du lịch & Khách sạn",
    "Hỗ trợ pháp lý toàn diện cho các dự án nghỉ dưỡng, khách sạn và kinh doanh lữ hành quốc tế.",
    "Globe"),
   ("Bất động sản & Xây dựng",
    "Tư vấn pháp lý dự án, giao dịch mua bán, sáp nhập và giải quyết tranh chấp xây dựng.",
    "Building2"),
   ("Tư vấn Doanh nghiệp",
    "Thành lập, tái cấu trúc, M&A và quản trị nội bộ doanh nghiệp theo chuẩn mực quốc tế.",
    "Briefcase"),
   ("Tranh tụng & Giải quyết",
    "Đại diện tham gia tố tụng tại Tòa án và Trọng tài thương mại với chiến lược hiệu quả.",
    "Gavel"),
   ("Sở hữu trí tuệ",
    "Đăng ký bảo hộ, li-xăng và xử lý vi phạm quyền sở hữu trí tuệ cho thương hiệu.",
    "Scale")]

/-- Seed Loader, services step: `SELECT count(*) as count FROM services`;
when the count is 0, insert the fixed default list in order via
`INSERT INTO services (title, description, icon) VALUES (?, ?, ?)`
(leaving `file_url` NULL). -/
def seedServices (s : ServicesState) : ServicesState :=
  if s.rows.length = 0 then
    initialServices.foldl
      (fun st x => ⟨st.rows ++ [⟨st.nextId, x.1, x.2.1, x.2.2, none⟩], st.nextId + 1⟩)
      s
  else s

/-- C6: starting from an empty services table, the seed step produces
exactly the six default records, in order, with consecutive ids, the fixed
titles, descriptions and icons, and no file URL; starting from a non-empty
table it changes nothing. -/
theorem seedServices_correct (s : ServicesState) :
    (s.rows = [] → seedServices s =
      ⟨[⟨s.nextId, "Môi trường & Năng lượng",
          "Tư vấn tuân thủ quy định môi trường, đánh giá tác động và phát triển dự án năng lượng tái tạo.",
          "Leaf", none⟩,
        ⟨s.nextId + 1, "Du lịch & Khách sạn",
          "Hỗ trợ pháp lý toàn diện cho các dự án nghỉ dưỡng, khách sạn và kinh doanh lữ hành quốc tế.",
          "Globe", none⟩,
        ⟨s.nextId + 2, "Bất động sản & Xây dựng",
          "Tư vấn pháp lý dự án, giao dịch mua bán, sáp nhập và giải quyết tranh chấp xây dựng.",
          "Building2", none⟩,
        ⟨s.nextId + 3, "Tư vấn Doanh nghiệp",
          "Thành lập, tái cấu trúc, M&A và quản trị nội bộ doanh nghiệp theo chuẩn mực quốc tế.",
          "Briefcase", none⟩,
        ⟨s.nextId + 4, "Tranh tụng & Giải quyết",
          "Đại diện tham gia tố tụng tại Tòa án và Trọng tài thương mại với chiến lược hiệu quả.",
          "Gavel", none⟩,
        ⟨s.nextId + 5, "Sở hữu trí tuệ",
          "Đăng ký bảo hộ, li-xăng và xử lý vi phạm quyền sở hữu trí tuệ cho thương hiệu.",
          "Scale", none⟩],
        s.nextId + 6⟩)
    ∧ (s.rows ≠ [] → seedServices s = s) := by
  obtain ⟨rows, n⟩ := s
  constructor
  · intro h
    simp only at h
    subst h
    rfl
  · intro h
    simp only at h
    cases rows with
    | nil => exact absurd rfl h
    | cons a t => simp [seedServices]

/-- Witness for `seedServices_correct`: seeding an empty table starting at
id 1, and leaving a non-empty table alone. -/
theorem seedServices_correct_witness :
    seedServices ⟨[], 1⟩ =
      ⟨[⟨1, "Môi trường & Năng lượng",
          "Tư vấn tuân thủ quy định môi trường, đánh giá tác động và phát triển dự án năng lượng tái tạo.",
          "Leaf", none⟩,
        ⟨1 + 1, "Du lịch & Khách sạn",
          "Hỗ trợ pháp lý toàn diện cho các dự án nghỉ dưỡng, khách sạn và kinh doanh lữ hành quốc tế.",
          "Globe", none⟩,
        ⟨1 + 2, "Bất động sản & Xây dựng",
          "Tư vấn pháp lý dự án, giao dịch mua bán, sáp nhập và giải quyết tranh chấp xây dựng.",
          "Building2", none⟩,
        ⟨1 + 3, "Tư vấn Doanh nghiệp",
          "Thành lập, tái cấu trúc, M&A và quản trị nội bộ doanh nghiệp theo chuẩn mực quốc tế.",
          "Briefcase", none⟩,
        ⟨1 + 4, "Tranh tụng & Giải quyết",
          "Đại diện tham gia tố tụng tại Tòa án và Trọng tài thương mại với chiến lược hiệu quả.",
          "Gavel", none⟩,
        ⟨1 + 5, "Sở hữu trí tuệ",
          "Đăng ký bảo hộ, li-xăng và xử lý vi phạm quyền sở hữu trí tuệ cho thương hiệu.",
          "Scale", none⟩],
        1 + 6⟩
    ∧ seedServices ⟨[⟨7, "X", "Y", "Z", none⟩], 8⟩ = ⟨[⟨7, "X", "Y", "Z", none⟩], 8⟩ :=
  ⟨(seedServices_correct ⟨[], 1⟩).1 rfl,
    (seedServices_correct ⟨[⟨7, "X", "Y", "Z", none⟩], 8⟩).2 (by simp)⟩

/-- The file data multer attaches to the request; only the client-supplied
original name matters for the stored filename. -/
structure UploadedFile where
  originalname : String
deriving Repr, DecidableEq

/-- Model of Node's `path.extname`: the basename's suffix from its last dot,
empty when the basename has no dot or only a leading dot. -/
def extname (s : String) : String :=
  let b := (s.data.reverse.takeWhile (fun c => c ≠ '/')).reverse
  let after := b.reverse.takeWhile (fun c => c ≠ '.')
  if after.length = b.length then ""
  else if after.length + 1 = b.length then ""
  else String.mk ('.' :: after.reverse)

/-- The multer `diskStorage` filename callback:
`Date.now() + '-' + Math.round(Math.random() * 1E9)` plus
`path.extname(file.originalname)`. -/
def multerFilename (now rand : Nat) (originalname : String) : String :=
  toString now ++ "-" ++ toString rand ++ extname originalname

/-- POST /api/upload: the `upload.single('image')` callback answers 500 with
the error's message when multer reports an error, 400 "No file uploaded"
when no file arrived under the `image` field, and otherwise
`\x7b success, imageUrl \x7d` with `/uploads/` plus the generated filename. -/
def handleUpload (err : Option String) (file : Option UploadedFile)
    (now rand : Nat) : HttpResp :=
  match err with
  | some m => ⟨500, .message false m⟩
  | none =>
    match file with
    | none => ⟨400, .message false "No file uploaded"⟩
    | some f => ⟨200, .uploadOk ("/uploads/" ++ multerFilename now rand f.originalname)⟩

/-- C9: a multer/write failure answers 500 carrying the failure message; a
request without a file answers 400; otherwise the answer is a success whose
URL is `/uploads/` followed by the millisecond timestamp, a dash, the random
integer and the original file's extension. -/
theorem handleUpload_correct (err : Option String) (file : Option UploadedFile)
    (now rand : Nat) :
    (∀ m, err = some m → handleUpload err file now rand = ⟨500, .message false m⟩)
    ∧ (err = none → file = none →
        handleUpload err file now rand = ⟨400, .message false "No file uploaded"⟩)
    ∧ (∀ f, err = none → file = some f →
        handleUpload err file now rand
          = ⟨200, .uploadOk ("/uploads/"
              ++ (toString now ++ "-" ++ toString rand ++ extname f.originalname))⟩) := by
  refine ⟨?_, ?_, ?_⟩
  · intro m hm; subst hm; rfl
  · intro h1 h2; subst h1; subst h2; rfl
  · intro f h1 h2; subst h1; subst h2; rfl

/-- Witness for `handleUpload_correct` on the three concrete cases. -/
theorem handleUpload_correct_witness :
    handleUpload (some "Unexpected field") none 5 7
      = ⟨500, .message false "Unexpected field"⟩
    ∧ handleUpload none none 5 7 = ⟨400, .message false "No file uploaded"⟩
    ∧ handleUpload none (some ⟨"photo.jpg"⟩) 1700000000000 123456789
      = ⟨200, .uploadOk ("/uploads/"
          ++ (toString 1700000000000 ++ "-" ++ toString 123456789
              ++ extname "photo.jpg"))⟩ :=
  ⟨(handleUpload_correct (some "Unexpected field") none 5 7).1
      "Unexpected field" rfl,
   (handleUpload_correct none none 5 7).2.1 rfl rfl,
   (handleUpload_correct none (some ⟨"photo.jpg"⟩) 1700000000000 123456789).2.2
      ⟨"photo.jpg"⟩ rfl rfl⟩

end TetsWeb
